import Mathlib

/-!
Verification of the Eco-Logro volume-feedback pipeline.

The definitions below are a shallow embedding of the JavaScript sources:
`services/StateManager.js`, `services/SessionTracker.js`,
`services/AudioAnalyzer.js` and `app.js`.  JavaScript numbers are modelled
as rationals (ℚ), timestamps in milliseconds as rationals or naturals, and
fallible results as `Option`.
-/

namespace EcoLogro

/-- The five feedback states of `StateManager.js` (`const States = {...}`). -/
inductive FeedbackState where
  | SILENT
  | LOW
  | OPTIMAL
  | WARNING
  | DANGER
deriving DecidableEq, Repr

/-- The string value each member of the `States` object carries in the source. -/
def stateKey : FeedbackState → String
  | .SILENT => "SILENT"
  | .LOW => "LOW"
  | .OPTIMAL => "OPTIMAL"
  | .WARNING => "WARNING"
  | .DANGER => "DANGER"

/-- The configuration record `this.config` of `StateManager`. -/
structure Config where
  lowerThreshold : ℚ
  upperThreshold : ℚ
  sensitivity : ℚ
  dampening : ℚ
deriving DecidableEq, Repr

/-- Default configuration from the `StateManager` constructor. -/
def defaultConfig : Config :=
  { lowerThreshold := 25, upperThreshold := 75, sensitivity := 85, dampening := 20 }

/-- A partial configuration update, as passed to `updateConfiguration`:
each field may or may not be present in the `newConfig` object that gets
spread over the existing configuration. -/
structure ConfigPatch where
  lowerThreshold : Option ℚ := none
  upperThreshold : Option ℚ := none
  sensitivity : Option ℚ := none
  dampening : Option ℚ := none
deriving DecidableEq, Repr

/-- The object spread `{ ...this.config, ...newConfig }` in
`StateManager.updateConfiguration`. -/
def mergeConfig (c : Config) (n : ConfigPatch) : Config :=
  { lowerThreshold := n.lowerThreshold.getD c.lowerThreshold
    upperThreshold := n.upperThreshold.getD c.upperThreshold
    sensitivity := n.sensitivity.getD c.sensitivity
    dampening := n.dampening.getD c.dampening }

/-- `StateManager.updateConfiguration`: merge, clamp each field to its range,
then force `upperThreshold = lowerThreshold + 10` when the clamped
`lowerThreshold >= upperThreshold`. -/
def updateConfiguration (c : Config) (n : ConfigPatch) : Config :=
  let m := mergeConfig c n
  let lower := max 0 (min 85 m.lowerThreshold)
  let upper := max 15 (min 100 m.upperThreshold)
  { lowerThreshold := lower
    upperThreshold := if lower ≥ upper then lower + 10 else upper
    sensitivity := max 0 (min 100 m.sensitivity)
    dampening := max 0 (min 100 m.dampening) }

/-- `StateManager.determineState`: the threshold classification rule. -/
def determineState (cfg : Config) (volume : ℚ) : FeedbackState :=
  if volume < 3 then .SILENT
  else if volume < cfg.lowerThreshold then .LOW
  else if volume ≥ cfg.lowerThreshold ∧ volume ≤ cfg.upperThreshold then .OPTIMAL
  else .DANGER

/-- The noise gate in `AudioAnalyzer.getRMSVolume`: any volume below 8 is
forced to exactly 0. -/
def noiseGate (volume : ℚ) : ℚ :=
  if volume < 8 then 0 else volume

/-- The arithmetic tail of `AudioAnalyzer.getRMSVolume` applied to the
root-mean-square value computed from the byte buffer: gain 250, clamp at
100, then the noise gate.  The square-root aggregation that produces `rms`
from the buffer happens upstream; the conditioner is a function of the
normalized rms value. -/
def conditionRMS (rms : ℚ) : ℚ :=
  noiseGate (min 100 (rms * 250))

/-- `AudioAnalyzer.getRMSVolume`: returns 0 when `this.dataArray` is absent
(no audio data), otherwise conditions the rms value. -/
def getRMSVolume (dat : Option ℚ) : ℚ :=
  match dat with
  | none => 0
  | some rms => conditionRMS rms

/-- The volume-persistence state kept on the `EcoLogroApp` instance:
`lastSignificantVolume`, `lastVolumeTimestamp`, `displayedVolume` and the
configurable `volumeHoldDuration`. -/
structure ThermoState where
  lastSignificantVolume : ℚ
  lastVolumeTimestamp : ℚ
  displayedVolume : ℚ
  volumeHoldDuration : ℚ
deriving DecidableEq, Repr

/-- Initial persistence state from the `EcoLogroApp` constructor
(hold duration 2000 ms by default, overridable by configuration). -/
def initThermo (hold : ℚ) : ThermoState :=
  { lastSignificantVolume := 0, lastVolumeTimestamp := 0,
    displayedVolume := 0, volumeHoldDuration := hold }

/-- `EcoLogroApp.updateThermometer`, persistence part: rising edges snap
immediately; falling edges hold for `volumeHoldDuration` ms and then decay
linearly over a fixed 1000 ms window toward the new sample, re-anchoring
once the decay completes. -/
def updateThermometer (s : ThermoState) (volume now : ℚ) : ThermoState :=
  if volume > s.lastSignificantVolume then
    { s with lastSignificantVolume := volume, lastVolumeTimestamp := now,
             displayedVolume := volume }
  else
    let timeSinceLastPeak := now - s.lastVolumeTimestamp
    if timeSinceLastPeak < s.volumeHoldDuration then
      { s with displayedVolume := s.lastSignificantVolume }
    else
      let decayDuration : ℚ := 1000
      let timeInDecay := timeSinceLastPeak - s.volumeHoldDuration
      let progress := min 1 (timeInDecay / decayDuration)
      let disp := s.lastSignificantVolume * (1 - progress) + volume * progress
      if progress ≥ 1 then
        { s with lastSignificantVolume := volume, lastVolumeTimestamp := now,
                 displayedVolume := disp }
      else
        { s with displayedVolume := disp }

/-- Processing a list of (sample, timestamp) ticks through the stabilizer. -/
def runThermo (s : ThermoState) (ticks : List (ℚ × ℚ)) : ThermoState :=
  ticks.foldl (fun st p => updateThermometer st p.1 p.2) s

/-- Claim C2: for every displayed value in `[0,100]` and valid configuration,
`determineState` produces exactly one of SILENT, LOW, OPTIMAL, DANGER —
SILENT below 3, LOW from 3 up to the lower threshold, OPTIMAL inside the
band, DANGER above the upper threshold — and WARNING is never produced. -/
theorem determineState_total_never_warning (cfg : Config) (v : ℚ)
    (hvalid : cfg.lowerThreshold < cfg.upperThreshold)
    (h0 : 0 ≤ v) (h100 : v ≤ 100) :
    determineState cfg v ≠ FeedbackState.WARNING ∧
    (determineState cfg v = FeedbackState.SILENT ∨
      determineState cfg v = FeedbackState.LOW ∨
      determineState cfg v = FeedbackState.OPTIMAL ∨
      determineState cfg v = FeedbackState.DANGER) ∧
    (v < 3 → determineState cfg v = FeedbackState.SILENT) ∧
    (3 ≤ v → v < cfg.lowerThreshold → determineState cfg v = FeedbackState.LOW) ∧
    (3 ≤ v → cfg.lowerThreshold ≤ v → v ≤ cfg.upperThreshold →
      determineState cfg v = FeedbackState.OPTIMAL) ∧
    (3 ≤ v → cfg.upperThreshold < v → determineState cfg v = FeedbackState.DANGER) := by
  unfold determineState
  split_ifs with h1 h2 h3
  · exact ⟨by simp, Or.inl rfl, fun _ => rfl, fun h _ => absurd h1 (not_lt.mpr h),
      fun h _ _ => absurd h1 (not_lt.mpr h), fun h _ => absurd h1 (not_lt.mpr h)⟩
  · refine ⟨by simp, Or.inr (Or.inl rfl), fun h => absurd h h1, fun _ _ => rfl,
      fun _ hlo _ => absurd h2 (not_lt.mpr hlo), fun _ hup => ?_⟩
    exact absurd (lt_trans h2 hvalid) (not_lt.mpr (le_of_lt hup))
  · exact ⟨by simp, Or.inr (Or.inr (Or.inl rfl)), fun h => absurd h h1,
      fun _ h => absurd h h2, fun _ _ _ => rfl,
      fun _ hup => absurd h3.2 (not_le.mpr hup)⟩
  · refine ⟨by simp, Or.inr (Or.inr (Or.inr rfl)), fun h => absurd h h1,
      fun _ h => absurd h h2, fun _ hlo hup => absurd ⟨hlo, hup⟩ h3, fun _ _ => rfl⟩

/-- Witness for the classifier theorem at a concrete input. -/
theorem determineState_total_never_warning_witness :
    determineState defaultConfig 50 ≠ FeedbackState.WARNING ∧
    determineState defaultConfig 50 = FeedbackState.OPTIMAL := by
  have h := determineState_total_never_warning defaultConfig 50
    (by norm_num [defaultConfig]) (by norm_num) (by norm_num)
  exact ⟨h.1, h.2.2.2.2.1 (by norm_num)
    (by norm_num [defaultConfig]) (by norm_num [defaultConfig])⟩

/-- Claim C7: for every normalized rms in `[0,1]` the conditioner returns a
value in `[0,100]` equal to `min 100 (rms*250)` except that results below 8
are forced to exactly 0, and it returns 0 when no audio data is available. -/
theorem getRMSVolume_range_gate (rms : ℚ) (h0 : 0 ≤ rms) (h1 : rms ≤ 1) :
    0 ≤ getRMSVolume (some rms) ∧ getRMSVolume (some rms) ≤ 100 ∧
    getRMSVolume (some rms) =
      (if min 100 (rms * 250) < 8 then 0 else min 100 (rms * 250)) ∧
    getRMSVolume none = 0 := by
  have hred : getRMSVolume (some rms)
      = if min 100 (rms * 250) < 8 then 0 else min 100 (rms * 250) := rfl
  refine ⟨?_, ?_, hred, rfl⟩
  · rw [hred]
    split_ifs with h
    · exact le_refl 0
    · exact le_trans (by norm_num) (not_lt.mp h)
  · rw [hred]
    split_ifs with h
    · norm_num
    · exact min_le_left _ _

/-- Witness for the conditioner theorem at a concrete input. -/
theorem getRMSVolume_range_gate_witness :
    0 ≤ getRMSVolume (some (1/5)) ∧ getRMSVolume (some (1/5)) ≤ 100 := by
  have h := getRMSVolume_range_gate (1/5) (by norm_num) (by norm_num)
  exact ⟨h.1, h.2.1⟩

/-- Claim C3: when the new sample does not exceed `lastSignificantVolume`
and the elapsed time is strictly below the hold duration, the tick holds:
the displayed value equals `lastSignificantVolume` exactly and both the
peak value and its timestamp are unchanged. -/
theorem updateThermometer_hold (s : ThermoState) (volume now : ℚ)
    (hle : volume ≤ s.lastSignificantVolume)
    (hel : now - s.lastVolumeTimestamp < s.volumeHoldDuration) :
    (updateThermometer s volume now).displayedVolume = s.lastSignificantVolume ∧
    (updateThermometer s volume now).lastSignificantVolume = s.lastSignificantVolume ∧
    (updateThermometer s volume now).lastVolumeTimestamp = s.lastVolumeTimestamp := by
  simp only [updateThermometer]
  rw [if_neg (not_lt.mpr hle), if_pos hel]
  exact ⟨rfl, rfl, rfl⟩

/-- Witness for the hold theorem at a concrete state and tick. -/
theorem updateThermometer_hold_witness :
    (updateThermometer ⟨50, 0, 50, 2000⟩ 10 1000).displayedVolume = 50 ∧
    (updateThermometer ⟨50, 0, 50, 2000⟩ 10 1000).lastSignificantVolume = 50 ∧
    (updateThermometer ⟨50, 0, 50, 2000⟩ 10 1000).lastVolumeTimestamp = 0 :=
  updateThermometer_hold ⟨50, 0, 50, 2000⟩ 10 1000 (by norm_num) (by norm_num)

/-- Claim C4: when the new sample does not exceed `lastSignificantVolume`
and the elapsed time has reached the hold duration, the displayed value is
the linear interpolation with `progress = min 1 ((elapsed - hold)/1000)`;
at `elapsed = hold + 1000` it equals the sample exactly and the stabilizer
re-anchors. -/
theorem updateThermometer_decay (s : ThermoState) (volume now : ℚ)
    (hle : volume ≤ s.lastSignificantVolume)
    (hdecay : s.volumeHoldDuration ≤ now - s.lastVolumeTimestamp) :
    (updateThermometer s volume now).displayedVolume =
      s.lastSignificantVolume *
        (1 - min 1 ((now - s.lastVolumeTimestamp - s.volumeHoldDuration) / 1000)) +
      volume * min 1 ((now - s.lastVolumeTimestamp - s.volumeHoldDuration) / 1000) ∧
    (now - s.lastVolumeTimestamp = s.volumeHoldDuration + 1000 →
      (updateThermometer s volume now).displayedVolume = volume ∧
      (updateThermometer s volume now).lastSignificantVolume = volume ∧
      (updateThermometer s volume now).lastVolumeTimestamp = now) := by
  simp only [updateThermometer]
  rw [if_neg (not_lt.mpr hle), if_neg (not_lt.mpr hdecay)]
  have hprog : ∀ hb : now - s.lastVolumeTimestamp = s.volumeHoldDuration + 1000,
      min 1 ((now - s.lastVolumeTimestamp - s.volumeHoldDuration) / 1000) = (1 : ℚ) := by
    intro hb
    have hd : now - s.lastVolumeTimestamp - s.volumeHoldDuration = 1000 := by linarith
    rw [hd]
    norm_num
  constructor
  · split_ifs with h
    · rfl
    · rfl
  · intro hb
    rw [if_pos (ge_of_eq (hprog hb))]
    refine ⟨?_, rfl, rfl⟩
    show s.lastSignificantVolume *
        (1 - min 1 ((now - s.lastVolumeTimestamp - s.volumeHoldDuration) / 1000)) +
      volume * min 1 ((now - s.lastVolumeTimestamp - s.volumeHoldDuration) / 1000) = volume
    rw [hprog hb]
    ring

/-- Witness for the decay theorem at the exact decay boundary. -/
theorem updateThermometer_decay_witness :
    (updateThermometer ⟨50, 0, 50, 2000⟩ 10 3000).displayedVolume = 10 ∧
    (updateThermometer ⟨50, 0, 50, 2000⟩ 10 3000).lastSignificantVolume = 10 ∧
    (updateThermometer ⟨50, 0, 50, 2000⟩ 10 3000).lastVolumeTimestamp = 3000 :=
  (updateThermometer_decay ⟨50, 0, 50, 2000⟩ 10 3000 (by norm_num)
    (by norm_num)).2 (by norm_num)

/-- Invariant of the persistence state: the displayed value is nonnegative,
never exceeds the held peak `lastSignificantVolume`, and the held peak is
at most 100. -/
def ThermoInv (s : ThermoState) : Prop :=
  0 ≤ s.displayedVolume ∧ s.displayedVolume ≤ s.lastSignificantVolume ∧
    s.lastSignificantVolume ≤ 100

/-- Counterexample to claim C8: starting from the initial stabilizer state,
the ticks `(50,0)`, `(0,2500)`, `(10,2600)` (samples in `[0,100]`,
timestamps non-decreasing) leave the displayed value at 25 after the second
tick and raise it to 26 on the third tick, even though the third sample 10
does not exceed the previous displayed value 25. -/
theorem updateThermometer_monotone_counterexample :
    (runThermo (initThermo 2000) [(50, 0), (0, 2500)]).displayedVolume = 25 ∧
    (updateThermometer (runThermo (initThermo 2000) [(50, 0), (0, 2500)]) 10
        2600).displayedVolume = 26 ∧
    (updateThermometer (runThermo (initThermo 2000) [(50, 0), (0, 2500)]) 10
          2600).displayedVolume >
        (runThermo (initThermo 2000) [(50, 0), (0, 2500)]).displayedVolume ∧
    ¬ ((10 : ℚ) > (runThermo (initThermo 2000) [(50, 0), (0, 2500)]).displayedVolume) := by
  have h1 : runThermo (initThermo 2000) [(50, 0), (0, 2500)]
      = ⟨50, 0, 25, 2000⟩ := by
    simp only [runThermo, List.foldl, initThermo]
    norm_num [updateThermometer, min_def]
  have h2 : updateThermometer (⟨50, 0, 25, 2000⟩ : ThermoState) 10 2600
      = ⟨50, 0, 26, 2000⟩ := by
    norm_num [updateThermometer, min_def]
  rw [h1, h2]
  norm_num

/-- Claim C8 amended: every tick with a sample in `[0,100]` preserves the
invariant (so the displayed value always stays within `[0,100]`), and the
displayed value increases across a tick only if the new sample exceeds the
previous displayed value or the displayed value had already fallen below
the held peak (that is, a decay was in progress). -/
theorem updateThermometer_inv (s : ThermoState) (volume now : ℚ)
    (hs : ThermoInv s) (h0 : 0 ≤ volume) (h1 : volume ≤ 100) :
    ThermoInv (updateThermometer s volume now) ∧
    ((updateThermometer s volume now).displayedVolume > s.displayedVolume →
      volume > s.displayedVolume ∨
        s.displayedVolume < s.lastSignificantVolume) := by
  obtain ⟨hd0, hdl, hl100⟩ := hs
  unfold ThermoInv
  simp only [updateThermometer]
  split_ifs with hb1 hb2 hb3
  · exact ⟨⟨h0, le_refl _, h1⟩, fun h => Or.inl h⟩
  · exact ⟨⟨le_trans hd0 hdl, le_refl _, hl100⟩, fun h => Or.inr h⟩
  · have hvle : volume ≤ s.lastSignificantVolume := not_lt.mp hb1
    have hp1 : min 1 ((now - s.lastVolumeTimestamp - s.volumeHoldDuration) / 1000)
        = (1 : ℚ) := le_antisymm (min_le_left _ _) hb3
    refine ⟨⟨?_, ?_, h1⟩, fun h => ?_⟩
    · show (0 : ℚ) ≤ s.lastSignificantVolume *
        (1 - min 1 ((now - s.lastVolumeTimestamp - s.volumeHoldDuration) / 1000)) +
        volume * min 1 ((now - s.lastVolumeTimestamp - s.volumeHoldDuration) / 1000)
      rw [hp1]
      linarith
    · show s.lastSignificantVolume *
        (1 - min 1 ((now - s.lastVolumeTimestamp - s.volumeHoldDuration) / 1000)) +
        volume * min 1 ((now - s.lastVolumeTimestamp - s.volumeHoldDuration) / 1000)
        ≤ volume
      rw [hp1]
      linarith
    · rcases lt_or_eq_of_le hdl with hlt | heq
      · exact Or.inr hlt
      · have hgt : s.lastSignificantVolume *
            (1 - min 1 ((now - s.lastVolumeTimestamp - s.volumeHoldDuration) / 1000)) +
            volume * min 1 ((now - s.lastVolumeTimestamp - s.volumeHoldDuration) / 1000)
            > s.displayedVolume := h
        rw [hp1] at hgt
        refine Or.inl ?_
        linarith
  · have hvle : volume ≤ s.lastSignificantVolume := not_lt.mp hb1
    have hhold : s.volumeHoldDuration ≤ now - s.lastVolumeTimestamp := not_lt.mp hb2
    have hx0 : (0 : ℚ) ≤ (now - s.lastVolumeTimestamp - s.volumeHoldDuration) / 1000 :=
      div_nonneg (by linarith) (by norm_num)
    have hp0 : (0 : ℚ) ≤ min 1 ((now - s.lastVolumeTimestamp - s.volumeHoldDuration) / 1000) :=
      le_min (by norm_num) hx0
    have hple : min 1 ((now - s.lastVolumeTimestamp - s.volumeHoldDuration) / 1000) ≤ (1 : ℚ) :=
      min_le_left _ _
    have hub : s.lastSignificantVolume *
        (1 - min 1 ((now - s.lastVolumeTimestamp - s.volumeHoldDuration) / 1000)) +
        volume * min 1 ((now - s.lastVolumeTimestamp - s.volumeHoldDuration) / 1000)
        ≤ s.lastSignificantVolume := by
      nlinarith [mul_nonneg hp0 (sub_nonneg.mpr hvle)]
    refine ⟨⟨?_, hub, hl100⟩, fun h => ?_⟩
    · show (0 : ℚ) ≤ s.lastSignificantVolume *
        (1 - min 1 ((now - s.lastVolumeTimestamp - s.volumeHoldDuration) / 1000)) +
        volume * min 1 ((now - s.lastVolumeTimestamp - s.volumeHoldDuration) / 1000)
      have t1 : (0 : ℚ) ≤ s.lastSignificantVolume *
          (1 - min 1 ((now - s.lastVolumeTimestamp - s.volumeHoldDuration) / 1000)) :=
        mul_nonneg (le_trans hd0 hdl) (by linarith)
      have t2 : (0 : ℚ) ≤ volume *
          min 1 ((now - s.lastVolumeTimestamp - s.volumeHoldDuration) / 1000) :=
        mul_nonneg h0 hp0
      linarith
    · rcases lt_or_eq_of_le hdl with hlt | heq
      · exact Or.inr hlt
      · have hgt : s.lastSignificantVolume *
            (1 - min 1 ((now - s.lastVolumeTimestamp - s.volumeHoldDuration) / 1000)) +
            volume * min 1 ((now - s.lastVolumeTimestamp - s.volumeHoldDuration) / 1000)
            > s.displayedVolume := h
        have hfalse : False := by linarith
        exact hfalse.elim

/-- Witness for the invariant theorem at a concrete state and tick. -/
theorem updateThermometer_inv_witness :
    ThermoInv (updateThermometer (initThermo 2000) 50 0) :=
  (updateThermometer_inv (initThermo 2000) 50 0
    (by refine ⟨?_, ?_, ?_⟩ <;> norm_num [initThermo])
    (by norm_num) (by norm_num)).1

/-- Componentwise equality of configurations. -/
theorem Config.ext2 (a b : Config)
    (hl : a.lowerThreshold = b.lowerThreshold)
    (hu : a.upperThreshold = b.upperThreshold)
    (hs : a.sensitivity = b.sensitivity)
    (hd : a.dampening = b.dampening) : a = b := by
  cases a
  cases b
  simp only [Config.mk.injEq]
  exact ⟨hl, hu, hs, hd⟩

/-- Clamping fixes values already inside the range. -/
theorem clamp_fix (lo hi x : ℚ) (h1 : lo ≤ x) (h2 : x ≤ hi) :
    max lo (min hi x) = x := by
  rw [min_eq_right h2, max_eq_right h1]

/-- Unfolded form of the lower threshold after `updateConfiguration`. -/
theorem uc_lower_eq (c : Config) (n : ConfigPatch) :
    (updateConfiguration c n).lowerThreshold
      = max 0 (min 85 (n.lowerThreshold.getD c.lowerThreshold)) := rfl

/-- Unfolded form of the upper threshold after `updateConfiguration`. -/
theorem uc_upper_eq (c : Config) (n : ConfigPatch) :
    (updateConfiguration c n).upperThreshold
      = if max 0 (min 85 (n.lowerThreshold.getD c.lowerThreshold))
            ≥ max 15 (min 100 (n.upperThreshold.getD c.upperThreshold))
        then max 0 (min 85 (n.lowerThreshold.getD c.lowerThreshold)) + 10
        else max 15 (min 100 (n.upperThreshold.getD c.upperThreshold)) := rfl

/-- Range and validity bounds established by every configuration update. -/
theorem uc_bounds (c : Config) (n : ConfigPatch) :
    0 ≤ (updateConfiguration c n).lowerThreshold ∧
    (updateConfiguration c n).lowerThreshold ≤ 85 ∧
    15 ≤ (updateConfiguration c n).upperThreshold ∧
    (updateConfiguration c n).upperThreshold ≤ 100 ∧
    (updateConfiguration c n).lowerThreshold < (updateConfiguration c n).upperThreshold := by
  rw [uc_lower_eq, uc_upper_eq]
  set A := max 0 (min 85 (n.lowerThreshold.getD c.lowerThreshold)) with hA
  set B := max 15 (min 100 (n.upperThreshold.getD c.upperThreshold)) with hB
  have hA0 : (0 : ℚ) ≤ A := le_max_left _ _
  have hA85 : A ≤ 85 := max_le (by norm_num) (min_le_left _ _)
  have hB15 : (15 : ℚ) ≤ B := le_max_left _ _
  have hB100 : B ≤ 100 := max_le (by norm_num) (min_le_left _ _)
  by_cases hf : A ≥ B
  · rw [if_pos hf]
    exact ⟨hA0, hA85, by linarith, by linarith, by linarith⟩
  · rw [if_neg hf]
    push_neg at hf
    exact ⟨hA0, hA85, hB15, hB100, hf⟩

/-- A clamp applied after a merge that may fall back to an already-clamped
value is a no-op on the fallback side. -/
theorem clamp_getD_stable (lo hi y : ℚ) (h : lo ≤ hi) (x : Option ℚ) :
    max lo (min hi (x.getD (max lo (min hi y)))) = max lo (min hi (x.getD y)) := by
  cases x with
  | none =>
      simp only [Option.getD_none]
      exact clamp_fix lo hi _ (le_max_left _ _) (max_le h (min_le_left _ _))
  | some a => rfl

/-- Merging the same optional value twice collapses. -/
theorem getD_getD (x : Option ℚ) (z : ℚ) : x.getD (x.getD z) = x.getD z := by
  cases x <;> rfl

/-- The lower threshold is stable under a second identical update. -/
theorem uc_lower_stable (c : Config) (n : ConfigPatch) :
    (updateConfiguration (updateConfiguration c n) n).lowerThreshold
      = (updateConfiguration c n).lowerThreshold := by
  show max 0 (min 85 (n.lowerThreshold.getD
      (max 0 (min 85 (n.lowerThreshold.getD c.lowerThreshold)))))
    = max 0 (min 85 (n.lowerThreshold.getD c.lowerThreshold))
  rw [clamp_getD_stable 0 85 _ (by norm_num), getD_getD]

/-- The sensitivity is stable under a second identical update. -/
theorem uc_sens_stable (c : Config) (n : ConfigPatch) :
    (updateConfiguration (updateConfiguration c n) n).sensitivity
      = (updateConfiguration c n).sensitivity := by
  show max 0 (min 100 (n.sensitivity.getD
      (max 0 (min 100 (n.sensitivity.getD c.sensitivity)))))
    = max 0 (min 100 (n.sensitivity.getD c.sensitivity))
  rw [clamp_getD_stable 0 100 _ (by norm_num), getD_getD]

/-- The dampening is stable under a second identical update. -/
theorem uc_damp_stable (c : Config) (n : ConfigPatch) :
    (updateConfiguration (updateConfiguration c n) n).dampening
      = (updateConfiguration c n).dampening := by
  show max 0 (min 100 (n.dampening.getD
      (max 0 (min 100 (n.dampening.getD c.dampening)))))
    = max 0 (min 100 (n.dampening.getD c.dampening))
  rw [clamp_getD_stable 0 100 _ (by norm_num), getD_getD]

/-- The upper threshold is stable under a second identical update. -/
theorem uc_upper_stable (c : Config) (n : ConfigPatch) :
    (updateConfiguration (updateConfiguration c n) n).upperThreshold
      = (updateConfiguration c n).upperThreshold := by
  obtain ⟨hb0, hb85, hb15, hb100, hblt⟩ := uc_bounds c n
  rw [uc_upper_eq (updateConfiguration c n) n]
  have hL : max 0 (min 85 (n.lowerThreshold.getD (updateConfiguration c n).lowerThreshold))
      = (updateConfiguration c n).lowerThreshold := uc_lower_stable c n
  rw [hL]
  cases hnu : n.upperThreshold with
  | some b =>
      simp only [Option.getD_some]
      rw [uc_upper_eq c n, hnu]
      simp only [Option.getD_some]
      rw [← uc_lower_eq c n]
  | none =>
      simp only [Option.getD_none]
      rw [clamp_fix 15 100 _ hb15 hb100]
      exact if_neg (not_le.mpr hblt)

/-- Applying the same configuration update twice is the same as once. -/
theorem updateConfiguration_idem_aux (c : Config) (n : ConfigPatch) :
    updateConfiguration (updateConfiguration c n) n = updateConfiguration c n :=
  Config.ext2 _ _ (uc_lower_stable c n) (uc_upper_stable c n)
    (uc_sens_stable c n) (uc_damp_stable c n)

/-- Claim C5: every configuration update, even with out-of-range input,
clamps the lower threshold into `[0,85]` and the upper into `[15,100]`,
forces `upper = lower + 10` whenever the clamped lower reaches the clamped
upper, is idempotent on the same input, and always leaves
`lowerThreshold < upperThreshold`. -/
theorem updateConfiguration_clamp_idem (c : Config) (n : ConfigPatch) :
    (0 ≤ (updateConfiguration c n).lowerThreshold ∧
      (updateConfiguration c n).lowerThreshold ≤ 85) ∧
    (15 ≤ (updateConfiguration c n).upperThreshold ∧
      (updateConfiguration c n).upperThreshold ≤ 100) ∧
    (updateConfiguration c n).lowerThreshold
      < (updateConfiguration c n).upperThreshold ∧
    (max 0 (min 85 (n.lowerThreshold.getD c.lowerThreshold))
        ≥ max 15 (min 100 (n.upperThreshold.getD c.upperThreshold)) →
      (updateConfiguration c n).upperThreshold
        = (updateConfiguration c n).lowerThreshold + 10) ∧
    updateConfiguration (updateConfiguration c n) n = updateConfiguration c n := by
  obtain ⟨h1, h2, h3, h4, h5⟩ := uc_bounds c n
  refine ⟨⟨h1, h2⟩, ⟨h3, h4⟩, h5, ?_, updateConfiguration_idem_aux c n⟩
  intro hf
  rw [uc_upper_eq, if_pos hf, uc_lower_eq]

/-- Witness for the configuration-update theorem at an out-of-range input. -/
theorem updateConfiguration_clamp_idem_witness :
    (updateConfiguration defaultConfig
        ⟨some 200, some (-50), none, none⟩).upperThreshold
      = (updateConfiguration defaultConfig
          ⟨some 200, some (-50), none, none⟩).lowerThreshold + 10 ∧
    (updateConfiguration defaultConfig
        ⟨some 200, some (-50), none, none⟩).lowerThreshold
      < (updateConfiguration defaultConfig
          ⟨some 200, some (-50), none, none⟩).upperThreshold := by
  have h := updateConfiguration_clamp_idem defaultConfig ⟨some 200, some (-50), none, none⟩
  exact ⟨h.2.2.2.1 (by norm_num [defaultConfig, min_def, max_def]), h.2.2.1⟩

/-- The mutable session record of `SessionTracker` (`this.currentSession`).
Timestamps are naturals in milliseconds, durations naturals in seconds.
The random `sessionId` string is not modelled; no claim depends on it. -/
structure Session where
  startTime : ℕ
  totalDuration : ℕ
  greenZoneTime : ℕ
  peakVolume : ℤ
  consistencyScore : ℤ
  dropCount : ℕ
  stateHistory : List (FeedbackState × ℕ × ℤ)
  currentState : FeedbackState
  lastGreenTime : Option ℕ
deriving DecidableEq, Repr

/-- The `SessionTracker` state together with the persisted session history
(`localStorage` key `eco-logro-sessions`, written by
`saveSessionToHistory`). -/
structure Tracker where
  currentSession : Option Session
  isTracking : Bool
  history : List Session
deriving DecidableEq, Repr

/-- The arithmetic of `SessionTracker.calculateConsistency` on a session:
0 when the green zone was never reached, otherwise
`max(0, 100 - min(dropCount*5, 80))`. -/
def sessionConsistency (s : Session) : ℤ :=
  if s.greenZoneTime = 0 then 0
  else max 0 (100 - min ((s.dropCount : ℤ) * 5) 80)

/-- `SessionTracker.calculateConsistency`: returns 100 when there is no
current session. -/
def calculateConsistency (t : Tracker) : ℤ :=
  match t.currentSession with
  | none => 100
  | some s => sessionConsistency s

/-- The finalization performed by `endSession`: recompute `totalDuration`
from the clock and fill in the consistency score. -/
def finalizeSession (s : Session) (now : ℕ) : Session :=
  let s2 := { s with totalDuration := (now - s.startTime) / 1000 }
  { s2 with consistencyScore := sessionConsistency s2 }

/-- `SessionTracker.saveSessionToHistory`: prepend the summary and keep at
most the 50 most recent sessions. -/
def saveSessionToHistory (hist : List Session) (s : Session) : List Session :=
  (s :: hist).take 50

/-- `SessionTracker.endSession`: returns `none` and leaves the state
untouched when no session is being tracked; otherwise stops tracking,
finalizes the current session, saves it to the history and returns it. -/
def endSession (t : Tracker) (now : ℕ) : Option Session × Tracker :=
  match t.currentSession, t.isTracking with
  | some s, true =>
      let summary := finalizeSession s now
      (some summary,
        { currentSession := some summary, isTracking := false,
          history := saveSessionToHistory t.history summary })
  | _, _ => (none, t)

/-- The fresh session record built by `SessionTracker.startSession`. -/
def newSession (now : ℕ) : Session :=
  { startTime := now, totalDuration := 0, greenZoneTime := 0, peakVolume := 0,
    consistencyScore := 100, dropCount := 0, stateHistory := [],
    currentState := .SILENT, lastGreenTime := none }

/-- `SessionTracker.startSession`: first ends a session that is still being
tracked, then installs a fresh session record and starts tracking. -/
def startSession (t : Tracker) (now : ℕ) : Tracker :=
  let t1 := if t.isTracking then (endSession t now).2 else t
  { t1 with currentSession := some (newSession now), isTracking := true }

/-- Claim C6: every summary returned by `endSession` carries the
consistency score `max(0, 100 - min(dropCount*5, 80))`, forced to 0 when
the green-zone time is 0; with positive green-zone time and at least 16
drops the score is exactly 20. -/
theorem endSession_consistency (t : Tracker) (now : ℕ) (s : Session)
    (h : (endSession t now).1 = some s) :
    s.consistencyScore =
      (if s.greenZoneTime = 0 then 0
       else max 0 (100 - min ((s.dropCount : ℤ) * 5) 80)) ∧
    (0 < s.greenZoneTime → 16 ≤ s.dropCount → s.consistencyScore = 20) := by
  rcases ht : t.currentSession with _ | s0
  · rw [endSession] at h
    rw [ht] at h
    simp at h
  · rcases htr : t.isTracking with _ | _
    · rw [endSession, ht, htr] at h
      simp at h
    · rw [endSession, ht, htr] at h
      simp only [Option.some.injEq] at h
      subst h
      constructor
      · rfl
      · intro hg hd
        simp only [finalizeSession, sessionConsistency] at hg hd ⊢
        rw [if_neg (Nat.pos_iff_ne_zero.mp hg)]
        have hmin : min (((s0.dropCount : ℤ)) * 5) 80 = 80 := by omega
        rw [hmin]
        norm_num

/-- Witness for the consistency theorem on a concrete finalized session. -/
theorem endSession_consistency_witness :
    (finalizeSession { newSession 0 with greenZoneTime := 5, dropCount := 20 }
        3000).consistencyScore = 20 :=
  (endSession_consistency
      ⟨some { newSession 0 with greenZoneTime := 5, dropCount := 20 }, true, []⟩
      3000 _ rfl).2 (by decide) (by decide)

/-- Claim C9: ending with no active session returns the explicit
no-session signal and changes nothing, and starting while a session is
active first finalizes it into the history before the new session begins. -/
theorem session_boundaries (t : Tracker) (now : ℕ) :
    (t.isTracking = false → endSession t now = (none, t)) ∧
    (∀ s : Session, t.isTracking = true → t.currentSession = some s →
      (startSession t now).history
        = saveSessionToHistory t.history (finalizeSession s now) ∧
      (startSession t now).currentSession = some (newSession now) ∧
      (startSession t now).isTracking = true) := by
  constructor
  · intro h
    obtain ⟨cs, tr, hist⟩ := t
    replace h : tr = false := h
    subst h
    cases cs <;> rfl
  · intro s htr hcs
    obtain ⟨cs, tr, hist⟩ := t
    replace htr : tr = true := htr
    replace hcs : cs = some s := hcs
    subst htr
    subst hcs
    exact ⟨rfl, rfl, rfl⟩

/-- Witness for the session-boundary theorem on concrete trackers. -/
theorem session_boundaries_witness :
    endSession ⟨none, false, []⟩ 1000 = (none, ⟨none, false, []⟩) ∧
    (startSession ⟨some (newSession 0), true, []⟩ 5000).history
      = saveSessionToHistory [] (finalizeSession (newSession 0) 5000) :=
  ⟨(session_boundaries ⟨none, false, []⟩ 1000).1 rfl,
    ((session_boundaries ⟨some (newSession 0), true, []⟩ 5000).2
      (newSession 0) rfl rfl).1⟩

/-- A message/emoji pair from `StateManager.getStateInfo`. -/
structure StateInfo where
  message : String
  emoji : String
deriving DecidableEq, Repr

/-- `StateManager.getStateInfo`: an object lookup keyed by the state string
(SILENT, LOW, OPTIMAL and DANGER are present; WARNING is not), with
`info[state] || info.SILENT` falling back to the SILENT entry for any key
absent from the table. -/
def getStateInfo (studentName state : String) : StateInfo :=
  let lowMsg := if studentName = "" then "Habla un poco, no te oigo"
                else "Habla, " ++ studentName
  let silentInfo : StateInfo := { message := lowMsg, emoji := "🤔" }
  if state = "SILENT" then silentInfo
  else if state = "LOW" then { message := lowMsg, emoji := "🤔" }
  else if state = "OPTIMAL" then
    { message := "Perfecto, sigue así, mantén el volumen", emoji := "😊" }
  else if state = "DANGER" then { message := "¡Vamos!!", emoji := "😅" }
  else silentInfo

/-- The mutable state of a `StateManager` instance. -/
structure SMState where
  currentState : FeedbackState
  previousState : Option FeedbackState
  lastVolume : ℚ
  studentName : String
  config : Config
  volumeHistory : List ℚ
deriving DecidableEq, Repr

/-- The `StateManager` constructor state. -/
def initSMState : SMState :=
  { currentState := .SILENT, previousState := none, lastVolume := 0,
    studentName := "", config := defaultConfig, volumeHistory := [] }

/-- The payload `StateManager.notifyStateChange` hands to every registered
listener. -/
structure Notification where
  state : String
  previousState : Option String
  message : String
  emoji : String
deriving DecidableEq, Repr

/-- The notification built from the current state in `notifyStateChange`. -/
def notifyPayload (s : SMState) : Notification :=
  let info := getStateInfo s.studentName (stateKey s.currentState)
  { state := stateKey s.currentState,
    previousState := s.previousState.map stateKey,
    message := info.message, emoji := info.emoji }

/-- Claim C10: `getStateInfo` is total — any key outside the table
(including WARNING, which is in the state enumeration but absent from the
table) falls back to the SILENT entry, every result is one of the four
defined entries, and the notification payload carries exactly the
message/emoji pair of the current state. -/
theorem getStateInfo_defined (nm st : String) (s : SMState) :
    (st ≠ "SILENT" → st ≠ "LOW" → st ≠ "OPTIMAL" → st ≠ "DANGER" →
      getStateInfo nm st = getStateInfo nm "SILENT") ∧
    getStateInfo nm "WARNING" = getStateInfo nm "SILENT" ∧
    (getStateInfo nm st = getStateInfo nm "SILENT" ∨
      getStateInfo nm st = getStateInfo nm "LOW" ∨
      getStateInfo nm st = getStateInfo nm "OPTIMAL" ∨
      getStateInfo nm st = getStateInfo nm "DANGER") ∧
    (notifyPayload s).message
      = (getStateInfo s.studentName (stateKey s.currentState)).message ∧
    (notifyPayload s).emoji
      = (getStateInfo s.studentName (stateKey s.currentState)).emoji := by
  have hfb : ∀ u : String, u ≠ "SILENT" → u ≠ "LOW" → u ≠ "OPTIMAL" → u ≠ "DANGER" →
      getStateInfo nm u = getStateInfo nm "SILENT" := by
    intro u h1 h2 h3 h4
    simp only [getStateInfo]
    rw [if_neg h1, if_neg h2, if_neg h3, if_neg h4]
    simp
  refine ⟨hfb st, hfb "WARNING" (by decide) (by decide) (by decide) (by decide),
    ?_, rfl, rfl⟩
  by_cases h1 : st = "SILENT"
  · subst h1
    exact Or.inl rfl
  by_cases h2 : st = "LOW"
  · subst h2
    exact Or.inr (Or.inl rfl)
  by_cases h3 : st = "OPTIMAL"
  · subst h3
    exact Or.inr (Or.inr (Or.inl rfl))
  by_cases h4 : st = "DANGER"
  · subst h4
    exact Or.inr (Or.inr (Or.inr rfl))
  exact Or.inl (hfb st h1 h2 h3 h4)

/-- Witness for the state-info theorem: WARNING falls back to SILENT. -/
theorem getStateInfo_defined_witness :
    getStateInfo "" "WARNING" = getStateInfo "" "SILENT" :=
  (getStateInfo_defined "" "WARNING" initSMState).2.1

/-- The history push at the top of `StateManager.applyDampening`: append the
new sample, then drop the oldest entry when the capacity of 5
(`historyMaxLength`) is exceeded. -/
def pushHistory (hist : List ℚ) (v : ℚ) : List ℚ :=
  let h := hist ++ [v]
  if 5 < h.length then h.tail else h

/-- `StateManager.applyDampening`: returns the current volume unchanged when
`dampening == 0`, otherwise the weighted average of the current volume and
the mean of the (just pushed) history.  Also returns the updated history. -/
def applyDampening (cfg : Config) (hist : List ℚ) (volume : ℚ) : ℚ × List ℚ :=
  let h2 := pushHistory hist volume
  if cfg.dampening = 0 then (volume, h2)
  else
    let dampeningFactor := cfg.dampening / 100
    let historyAverage := h2.foldl (fun a b => a + b) 0 / (h2.length : ℚ)
    (volume * (1 - dampeningFactor) + historyAverage * dampeningFactor, h2)

/-- The record returned by `StateManager.updateState`. -/
structure UpdateResult where
  state : FeedbackState
  volume : ℚ
  stateChanged : Bool
  message : String
  emoji : String
  isInGreenZone : Bool
deriving DecidableEq, Repr

/-- `StateManager.updateState`: classifies the received volume directly
(the comment in the source notes the volume already arrives processed with
peak hold and smoothing from `app.js`), records state changes, and stores
the volume in `lastVolume`.  `applyDampening` is not called here. -/
def SMState.updateState (s : SMState) (volume : ℚ) : UpdateResult × SMState :=
  let newState := determineState s.config volume
  let stateChanged : Bool := decide (newState ≠ s.currentState)
  let s2 := if stateChanged then
      { s with previousState := some s.currentState, currentState := newState }
    else s
  let s3 := { s2 with lastVolume := volume }
  let info := getStateInfo s3.studentName (stateKey s3.currentState)
  ({ state := s3.currentState, volume := volume, stateChanged := stateChanged,
     message := info.message, emoji := info.emoji,
     isInGreenZone := decide (s3.currentState = FeedbackState.OPTIMAL) }, s3)

/-- `EcoLogroApp.handleVolumeUpdate`: the conditioned rms sample goes to
`updateThermometer` (the hold/decay envelope) and the resulting displayed
volume to `StateManager.updateState` for classification.  The session
tracker consumes the returned `UpdateResult`; its accounting is modelled
separately. -/
def handleVolumeUpdate (thermo : ThermoState) (sm : SMState) (rms now : ℚ) :
    ThermoState × SMState × UpdateResult :=
  let thermo2 := updateThermometer thermo rms now
  let r := sm.updateState thermo2.displayedVolume
  (thermo2, r.2, r.1)

/-- Modelled from the spec for comparison (claim C1, spec section 4.2):
a processing tick in which the dampened average produced by
`applyDampening` is the value fed to the hold/decay envelope and, through
the displayed volume, to classification. -/
def specDampenedTick (thermo : ThermoState) (sm : SMState) (rms now : ℚ) :
    ThermoState × SMState × UpdateResult :=
  let p := applyDampening sm.config sm.volumeHistory rms
  let sm1 := { sm with volumeHistory := p.2 }
  let thermo2 := updateThermometer thermo p.1 now
  let r := sm1.updateState thermo2.displayedVolume
  (thermo2, r.2, r.1)

/-- Projection: the envelope output of a pipeline tick is the thermometer
update applied to the raw rms sample. -/
theorem handleVolumeUpdate_fst (t : ThermoState) (m : SMState) (a b : ℚ) :
    (handleVolumeUpdate t m a b).1 = updateThermometer t a b := rfl

/-- Projection: the envelope output of a spec-dampened tick is the
thermometer update applied to the dampened sample. -/
theorem specDampenedTick_fst (t : ThermoState) (m : SMState) (a b : ℚ) :
    (specDampenedTick t m a b).1
      = updateThermometer t (applyDampening m.config m.volumeHistory a).1 b := rfl

/-- Projection: the manager state after a spec-dampened tick. -/
theorem specDampenedTick_sm (t : ThermoState) (m : SMState) (a b : ℚ) :
    (specDampenedTick t m a b).2.1
      = (SMState.updateState
          { m with volumeHistory := (applyDampening m.config m.volumeHistory a).2 }
          (updateThermometer t (applyDampening m.config m.volumeHistory a).1
            b).displayedVolume).2 := rfl

/-- State updates leave the configuration untouched. -/
theorem updateState_config (s : SMState) (x : ℚ) :
    (s.updateState x).2.config = s.config := by
  simp only [SMState.updateState]
  split <;> rfl

/-- State updates leave the dampening history untouched. -/
theorem updateState_history (s : SMState) (x : ℚ) :
    (s.updateState x).2.volumeHistory = s.volumeHistory := by
  simp only [SMState.updateState]
  split <;> rfl

/-- Counterexample to claim C1: with the default configuration
(dampening 20 > 0), feeding the samples 0 (at t=0) and 50 (at t=100)
through the real pipeline leaves the displayed volume at 50 — the raw
sample — whereas the spec-described dampened pipeline would display
`50*(1-0.2) + 25*0.2 = 45`.  The dampened average is therefore not the
value fed to the envelope and classification. -/
theorem dampening_bypassed_counterexample :
    initSMState.config.dampening = 20 ∧
    (handleVolumeUpdate
        (handleVolumeUpdate (initThermo 2000) initSMState 0 0).1
        (handleVolumeUpdate (initThermo 2000) initSMState 0 0).2.1
        50 100).1.displayedVolume = 50 ∧
    (specDampenedTick
        (specDampenedTick (initThermo 2000) initSMState 0 0).1
        (specDampenedTick (initThermo 2000) initSMState 0 0).2.1
        50 100).1.displayedVolume = 45 := by
  refine ⟨rfl, ?_, ?_⟩
  · simp only [handleVolumeUpdate_fst]
    norm_num [updateThermometer, initThermo]
  · have hd1 : (applyDampening initSMState.config initSMState.volumeHistory 0).1 = 0 := by
      norm_num [applyDampening, pushHistory, initSMState, defaultConfig,
        List.foldl_cons, List.foldl_nil]
    have hq1t : (specDampenedTick (initThermo 2000) initSMState 0 0).1
        = initThermo 2000 := by
      rw [specDampenedTick_fst, hd1]
      norm_num [updateThermometer, initThermo]
    have hqcfg : (specDampenedTick (initThermo 2000) initSMState 0 0).2.1.config
        = defaultConfig := by
      rw [specDampenedTick_sm, updateState_config]
      rfl
    have hqhist : (specDampenedTick (initThermo 2000) initSMState 0 0).2.1.volumeHistory
        = [0] := by
      rw [specDampenedTick_sm, updateState_history]
      norm_num [applyDampening, pushHistory, initSMState, defaultConfig]
    rw [specDampenedTick_fst, hq1t, hqcfg, hqhist]
    have hd2 : (applyDampening defaultConfig [0] 50).1 = 45 := by
      norm_num [applyDampening, pushHistory, defaultConfig,
        List.foldl_cons, List.foldl_nil]
    rw [hd2]
    norm_num [updateThermometer, initThermo]

/-- Claim C1 amended: `applyDampening` does implement the bypass at
`dampening = 0` and the weighted average `sample*(1-d) + mean(history)*d`
over a capacity-5, oldest-first history — but the processing tick never
invokes it: the raw conditioned sample is fed to the hold/decay envelope,
the history is never updated, and classification sees the resulting
displayed volume, regardless of the dampening setting. -/
theorem dampening_formula_and_bypass (cfg : Config) (hist : List ℚ) (v : ℚ)
    (thermo : ThermoState) (sm : SMState) (rms now : ℚ) :
    (cfg.dampening = 0 → (applyDampening cfg hist v).1 = v) ∧
    (cfg.dampening ≠ 0 →
      (applyDampening cfg hist v).1
        = v * (1 - cfg.dampening / 100)
          + ((pushHistory hist v).foldl (fun a b => a + b) 0
              / ((pushHistory hist v).length : ℚ)) * (cfg.dampening / 100)) ∧
    (applyDampening cfg hist v).2 = pushHistory hist v ∧
    (hist.length < 5 → pushHistory hist v = hist ++ [v]) ∧
    (hist.length = 5 → pushHistory hist v = hist.tail ++ [v]) ∧
    (handleVolumeUpdate thermo sm rms now).1 = updateThermometer thermo rms now ∧
    (handleVolumeUpdate thermo sm rms now).2.1.volumeHistory = sm.volumeHistory ∧
    (handleVolumeUpdate thermo sm rms now).2.2.state
      = determineState sm.config (updateThermometer thermo rms now).displayedVolume := by
  refine ⟨?_, ?_, ?_, ?_, ?_, rfl, ?_, ?_⟩
  · intro h
    simp only [applyDampening]
    rw [if_pos h]
  · intro h
    simp only [applyDampening]
    rw [if_neg h]
  · simp only [applyDampening]
    split_ifs <;> rfl
  · intro h
    simp only [pushHistory]
    rw [if_neg]
    simp only [List.length_append, List.length_cons, List.length_nil]
    omega
  · intro h
    cases hist with
    | nil => simp at h
    | cons a rest =>
        simp only [pushHistory]
        rw [if_pos]
        · rfl
        · simp only [List.cons_append, List.length_cons, List.length_append,
            List.length_nil]
          simp only [List.length_cons] at h
          omega
  · show ((sm.updateState (updateThermometer thermo rms now).displayedVolume).2).volumeHistory
      = sm.volumeHistory
    simp only [SMState.updateState]
    split <;> rfl
  · show ((sm.updateState (updateThermometer thermo rms now).displayedVolume).1).state
      = determineState sm.config (updateThermometer thermo rms now).displayedVolume
    simp only [SMState.updateState]
    split
    · rfl
    · rename_i hcond
      simp only [decide_eq_true_eq, ne_eq, not_not] at hcond
      exact hcond.symm

/-- Witness for the dampening theorem on a concrete full history. -/
theorem dampening_formula_and_bypass_witness :
    (applyDampening defaultConfig [0, 10, 20, 30, 40] 50).1
      = 50 * (1 - defaultConfig.dampening / 100)
        + ((pushHistory [0, 10, 20, 30, 40] 50).foldl (fun a b => a + b) 0
            / ((pushHistory [0, 10, 20, 30, 40] 50).length : ℚ))
          * (defaultConfig.dampening / 100) ∧
    pushHistory ([0, 10, 20, 30, 40] : List ℚ) 50 = [10, 20, 30, 40, 50] := by
  have h := dampening_formula_and_bypass defaultConfig [0, 10, 20, 30, 40] 50
    (initThermo 2000) initSMState 0 0
  refine ⟨h.2.1 (by norm_num [defaultConfig]), ?_⟩
  rw [h.2.2.2.2.1 rfl]
  rfl

end EcoLogro
